import Mathlib

/-!
Shallow embedding of src/paypal_express_checkout/models.py (a Django schema
module) together with the Django ORM semantics the declarations invoke:
field collection by the model metaclass, keyword-argument checking in model
initialisation, DateTimeField auto_now and auto_now_add behaviour on save,
DecimalField max_digits validation, PositiveIntegerField range checking,
ForeignKey deletion behaviour (this Django generation emulates ON DELETE
CASCADE when no on_delete is declared), and Meta.ordering.

Times are modelled as Nat, decimal amounts with decimal_places = 2 as Int
cents (the integer number of hundredths), primary keys as Nat.
-/

namespace PaypalExpressCheckout

/-- The kind of a Django model field, as used in models.py. -/
inductive FieldType where
  | charField
  | textField
  | dateTimeField
  | decimalField
  | floatField
  | positiveIntegerField
  | foreignKey (target : String)
  | genericForeignKey
deriving DecidableEq

/-- The options a field declaration in models.py carries. Options that are
not written in the source keep their Django defaults, encoded here as the
structure defaults. -/
structure FieldDecl where
  ftype : FieldType
  max_length : Option Nat := none
  blank : Bool := false
  null : Bool := false
  auto_now : Bool := false
  auto_now_add : Bool := false
  max_digits : Option Nat := none
  decimal_places : Option Nat := none
  has_choices : Bool := false
  default_value : Option String := none
deriving DecidableEq

/-- A statement `name = rhs` in a model class body. Django's model metaclass
adds an attribute to the model via contribute_to_class only when the value is
a field (or a virtual field such as GenericForeignKey); any other value, for
example a tuple, stays a plain class attribute and produces no column. -/
inductive ClassAttr where
  | field (d : FieldDecl)
  | virtualField (d : FieldDecl)
  | tuple1 (d : FieldDecl)
deriving DecidableEq

namespace Item

/-- models.py lines 25-29. -/
def identifier : FieldDecl := { ftype := .charField, max_length := some 256, blank := true }

/-- models.py lines 31-34. -/
def name : FieldDecl := { ftype := .charField, max_length := some 2048 }

/-- models.py lines 36-39. -/
def description : FieldDecl := { ftype := .charField, max_length := some 4000 }

/-- models.py lines 41-45. -/
def value : FieldDecl := { ftype := .decimalField, max_digits := some 8, decimal_places := some 2 }

/-- models.py lines 47-50. -/
def currency : FieldDecl := { ftype := .charField, max_length := some 16, default_value := some "USD" }

/-- The class body of Item, in source order. -/
def body : List (String × ClassAttr) :=
  [("identifier", .field identifier),
   ("name", .field name),
   ("description", .field description),
   ("value", .field value),
   ("currency", .field currency)]

end Item

namespace PaymentTransaction

/-- models.py lines 71-74. -/
def user : FieldDecl := { ftype := .foreignKey "User" }

/-- models.py lines 76-79. -/
def content_type : FieldDecl := { ftype := .foreignKey "ContentType", blank := true, null := true }

/-- models.py lines 81-83. -/
def object_id : FieldDecl := { ftype := .positiveIntegerField, blank := true, null := true }

/-- models.py lines 85-88. -/
def content_object : FieldDecl := { ftype := .genericForeignKey }

/-- models.py lines 90-94. -/
def creation_date : FieldDecl :=
  { ftype := .dateTimeField, auto_now_add := true, blank := true, null := true }

/-- models.py lines 96-100. -/
def date : FieldDecl := { ftype := .dateTimeField, auto_now := true, auto_now_add := true }

/-- models.py lines 102-105. -/
def transaction_id : FieldDecl := { ftype := .charField, max_length := some 32 }

/-- models.py lines 107-111. -/
def value : FieldDecl := { ftype := .decimalField, max_digits := some 8, decimal_places := some 2 }

/-- models.py lines 113-117. -/
def status : FieldDecl := { ftype := .charField, max_length := some 16, has_choices := true }

/-- The class body of PaymentTransaction, in source order. -/
def body : List (String × ClassAttr) :=
  [("user", .field user),
   ("content_type", .field content_type),
   ("object_id", .field object_id),
   ("content_object", .virtualField content_object),
   ("creation_date", .field creation_date),
   ("date", .field date),
   ("transaction_id", .field transaction_id),
   ("value", .field value),
   ("status", .field status)]

/-- models.py lines 119-120: Meta.ordering. -/
def ordering : List String := ["-creation_date", "transaction_id"]

end PaymentTransaction

namespace PurchasedItem

/-- models.py lines 144-147. -/
def user : FieldDecl := { ftype := .foreignKey "User" }

/-- models.py lines 149-153. -/
def identifier : FieldDecl := { ftype := .charField, max_length := some 256, blank := true }

/-- models.py lines 155-158: a required ForeignKey to PaymentTransaction with
no on_delete argument. -/
def transaction : FieldDecl := { ftype := .foreignKey "PaymentTransaction" }

/-- models.py lines 160-164. -/
def item : FieldDecl := { ftype := .foreignKey "Item", null := true, blank := true }

/-- models.py lines 166-169. -/
def content_type : FieldDecl := { ftype := .foreignKey "ContentType", blank := true, null := true }

/-- models.py lines 171-173. -/
def object_id : FieldDecl := { ftype := .positiveIntegerField, blank := true, null := true }

/-- models.py lines 175-178. -/
def content_object : FieldDecl := { ftype := .genericForeignKey }

/-- models.py lines 180-183. -/
def price : FieldDecl := { ftype := .floatField, blank := true, null := true }

/-- models.py lines 185-187. -/
def quantity : FieldDecl := { ftype := .positiveIntegerField }

/-- The class body of PurchasedItem, in source order. -/
def body : List (String × ClassAttr) :=
  [("user", .field user),
   ("identifier", .field identifier),
   ("transaction", .field transaction),
   ("item", .field item),
   ("content_type", .field content_type),
   ("object_id", .field object_id),
   ("content_object", .virtualField content_object),
   ("price", .field price),
   ("quantity", .field quantity)]

/-- models.py lines 189-190: Meta.ordering. -/
def ordering : List String := ["-transaction__date", "transaction__transaction_id"]

end PurchasedItem

namespace PaymentTransactionError

/-- models.py lines 212-215. -/
def date : FieldDecl := { ftype := .dateTimeField, auto_now_add := true }

/-- models.py lines 217-220. -/
def user : FieldDecl := { ftype := .foreignKey "User" }

/-- models.py lines 222-226. -/
def paypal_api_url : FieldDecl := { ftype := .charField, max_length := some 4000, blank := true }

/-- models.py lines 228-231. -/
def request_data : FieldDecl := { ftype := .textField, blank := true }

/-- models.py lines 233-236. -/
def response : FieldDecl := { ftype := .textField, blank := true }

/-- models.py lines 238-242: the ForeignKey call is followed by a trailing
comma, `transaction = models.ForeignKey(...),` so the class attribute is a
Python one-element tuple containing the field object, not the field object
itself. -/
def transaction : FieldDecl :=
  { ftype := .foreignKey "PaymentTransaction", blank := true, null := true }

/-- The class body of PaymentTransactionError, in source order. The last
entry records that the value assigned to the name transaction is a tuple. -/
def body : List (String × ClassAttr) :=
  [("date", .field date),
   ("user", .field user),
   ("paypal_api_url", .field paypal_api_url),
   ("request_data", .field request_data),
   ("response", .field response),
   ("transaction", .tuple1 transaction)]

end PaymentTransactionError

/-- The columns Django creates for a class body: exactly the attributes whose
value is a field object. A tuple has no contribute_to_class, so the metaclass
leaves it as a plain class attribute and it yields no column. -/
def djangoFields (body : List (String × ClassAttr)) : List (String × FieldDecl) :=
  body.filterMap fun p =>
    match p.2 with
    | .field d => some (p.1, d)
    | .virtualField _ => none
    | .tuple1 _ => none

/-- The attribute names Model.__init__ accepts as keyword arguments: the
automatic primary key, the concrete fields, and the virtual fields such as
GenericForeignKey. -/
def fieldNames (body : List (String × ClassAttr)) : List String :=
  "id" :: (body.filterMap fun p =>
    match p.2 with
    | .field _ => some p.1
    | .virtualField _ => some p.1
    | .tuple1 _ => none)

/-- Django Model.__init__: a keyword argument whose name is not an accepted
attribute name raises TypeError (invalid keyword argument). -/
def modelInit (body : List (String × ClassAttr)) (kwargs : List String) : Except String Unit :=
  match kwargs.find? (fun k => !((fieldNames body).contains k)) with
  | some k => Except.error (k ++ " is an invalid keyword argument")
  | none => Except.ok ()

/-! ### Stored rows

One structure per model, one field per column produced by the metaclass.
PaymentTransactionError has no transaction column: the tuple assignment on
models.py line 238-242 produces no field. -/

/-- A stored Item row. value is the decimal amount in cents. -/
structure ItemRow where
  pk : Nat
  identifier : String
  name : String
  description : String
  value : Int
  currency : String
deriving DecidableEq

/-- A stored PaymentTransaction row. creation_date is nullable in the schema
(models.py line 93); date is not. -/
structure PaymentTransactionRow where
  pk : Nat
  user : Nat
  content_type : Option Nat
  object_id : Option Nat
  creation_date : Option Nat
  date : Nat
  transaction_id : String
  value : Int
  status : String
deriving DecidableEq

/-- A stored PurchasedItem row. price is a nullable FloatField. -/
structure PurchasedItemRow where
  pk : Nat
  user : Nat
  identifier : String
  transaction : Nat
  item : Option Nat
  content_type : Option Nat
  object_id : Option Nat
  price : Option Float
  quantity : Int

/-- A stored PaymentTransactionError row: date, user, paypal_api_url,
request_data, response, and nothing else, because the tuple on line 238-242
contributes no column. -/
structure PaymentTransactionErrorRow where
  pk : Nat
  date : Nat
  user : Nat
  paypal_api_url : String
  request_data : String
  response : String
deriving DecidableEq

/-- The database state: one table per model of models.py. -/
structure DB where
  items : List ItemRow
  transactions : List PaymentTransactionRow
  purchased_items : List PurchasedItemRow
  errors : List PaymentTransactionErrorRow

/-! ### Field save and validation semantics -/

/-- Django DateTimeField.pre_save for a nullable column: when auto_now is
set, or auto_now_add is set and this save is an insert, the column is set to
the current time; otherwise the current value is kept. -/
def dateTimeOnSaveOpt (d : FieldDecl) (now : Nat) (add : Bool) (current : Option Nat) :
    Option Nat :=
  if d.auto_now || (d.auto_now_add && add) then some now else current

/-- Django DateTimeField.pre_save for a non-nullable column. -/
def dateTimeOnSave (d : FieldDecl) (now : Nat) (add : Bool) (current : Nat) : Nat :=
  if d.auto_now || (d.auto_now_add && add) then now else current

/-- Django DecimalField range check: a decimal with decimal_places = 2 stored
as cents fits max_digits digits exactly when its absolute value in cents is
below 10 ^ max_digits. -/
def decimalFits (d : FieldDecl) (cents : Int) : Bool :=
  cents.natAbs < 10 ^ (d.max_digits.getD 0)

/-- Django PositiveIntegerField range: the database check constraint admits
zero; the column is a 32-bit integer with a nonnegativity constraint. -/
def positiveIntegerFits (q : Int) : Bool :=
  decide (0 ≤ q) && decide (q ≤ 2147483647)

/-- Whether an Except result is a success. -/
def okB {α : Type} (e : Except String α) : Bool :=
  match e with
  | .ok _ => true
  | .error _ => false

/-! ### Operations -/

/-- The caller-supplied data for creating or saving an Item. -/
structure ItemInput where
  identifier : String := ""
  name : String
  description : String
  value : Int
  currency : String := "USD"

/-- Inserting an Item: the write is rejected when value overflows the
declared max_digits. -/
def createItem (inp : ItemInput) (pk : Nat) : Except String ItemRow :=
  if decimalFits Item.value inp.value then
    Except.ok
      { pk := pk
        identifier := inp.identifier
        name := inp.name
        description := inp.description
        value := inp.value
        currency := inp.currency }
  else Except.error "value overflows max_digits"

/-- The caller-supplied data for creating or saving a PaymentTransaction.
creation_date and date are not caller-supplied: both are auto fields. -/
structure PaymentTransactionInput where
  user : Nat
  content_type : Option Nat := none
  object_id : Option Nat := none
  transaction_id : String
  value : Int
  status : String

/-- Inserting a PaymentTransaction at time now. The two DateTimeField
columns are filled by pre_save with add = true; the write is rejected when
value overflows the declared max_digits. -/
def createPaymentTransaction (inp : PaymentTransactionInput) (pk now : Nat) :
    Except String PaymentTransactionRow :=
  if decimalFits PaymentTransaction.value inp.value then
    Except.ok
      { pk := pk
        user := inp.user
        content_type := inp.content_type
        object_id := inp.object_id
        creation_date := dateTimeOnSaveOpt PaymentTransaction.creation_date now true none
        date := dateTimeOnSave PaymentTransaction.date now true 0
        transaction_id := inp.transaction_id
        value := inp.value
        status := inp.status }
  else Except.error "value overflows max_digits"

/-- Saving an existing PaymentTransaction row at time now with new field
values. The two DateTimeField columns go through pre_save with add = false:
creation_date (auto_now_add only) keeps its stored value, date (auto_now) is
set to now. -/
def savePaymentTransaction (r : PaymentTransactionRow) (inp : PaymentTransactionInput)
    (now : Nat) : Except String PaymentTransactionRow :=
  if decimalFits PaymentTransaction.value inp.value then
    Except.ok
      { pk := r.pk
        user := inp.user
        content_type := inp.content_type
        object_id := inp.object_id
        creation_date := dateTimeOnSaveOpt PaymentTransaction.creation_date now false r.creation_date
        date := dateTimeOnSave PaymentTransaction.date now false r.date
        transaction_id := inp.transaction_id
        value := inp.value
        status := inp.status }
  else Except.error "value overflows max_digits"

/-- Deleting a PaymentTransaction. The ForeignKey on models.py line 155-158
declares no on_delete, which in this Django generation means the ORM
emulates ON DELETE CASCADE: the dependent PurchasedItem rows are deleted
with the transaction. PaymentTransactionError rows are untouched: the
module gives that model no transaction column. -/
def deletePaymentTransaction (db : DB) (pk : Nat) : DB :=
  { db with
    transactions := db.transactions.filter fun t => t.pk != pk
    purchased_items := db.purchased_items.filter fun p => p.transaction != pk }

/-- The caller-supplied data for creating a PurchasedItem. -/
structure PurchasedItemInput where
  user : Nat
  identifier : String := ""
  transaction : Nat
  item : Option Nat := none
  content_type : Option Nat := none
  object_id : Option Nat := none
  price : Option Float := none
  quantity : Int

/-- Inserting a PurchasedItem: the required ForeignKey must resolve to a
stored transaction, and quantity must satisfy the PositiveIntegerField
range constraint. -/
def createPurchasedItem (db : DB) (inp : PurchasedItemInput) (pk : Nat) :
    Except String PurchasedItemRow :=
  if db.transactions.any fun t => t.pk == inp.transaction then
    if positiveIntegerFits inp.quantity then
      Except.ok
        { pk := pk
          user := inp.user
          identifier := inp.identifier
          transaction := inp.transaction
          item := inp.item
          content_type := inp.content_type
          object_id := inp.object_id
          price := inp.price
          quantity := inp.quantity }
    else Except.error "quantity violates the PositiveIntegerField constraint"
  else Except.error "transaction foreign key violation"

/-- The caller-supplied data for creating a PaymentTransactionError. There
is no transaction entry: the model has no such field. -/
structure PaymentTransactionErrorInput where
  user : Nat
  paypal_api_url : String := ""
  request_data : String := ""
  response : String := ""

/-- Inserting a PaymentTransactionError at time now: date is filled by
pre_save with add = true. -/
def createPaymentTransactionError (inp : PaymentTransactionErrorInput) (pk now : Nat) :
    PaymentTransactionErrorRow :=
  { pk := pk
    date := dateTimeOnSave PaymentTransactionError.date now true 0
    user := inp.user
    paypal_api_url := inp.paypal_api_url
    request_data := inp.request_data
    response := inp.response }

/-! ### The operation trace of the normal flow -/

/-- One database operation of the flows this module supports: creates for
each model, save and cascade delete for PaymentTransaction. The module
defines no operation that updates or deletes a PaymentTransactionError. -/
inductive Op where
  | opCreateItem (inp : ItemInput) (pk : Nat)
  | opCreateTransaction (inp : PaymentTransactionInput) (pk now : Nat)
  | opSaveTransaction (pk : Nat) (inp : PaymentTransactionInput) (now : Nat)
  | opDeleteTransaction (pk : Nat)
  | opCreatePurchasedItem (inp : PurchasedItemInput) (pk : Nat)
  | opCreateError (inp : PaymentTransactionErrorInput) (pk now : Nat)

/-- Apply one operation to the database; a rejected write leaves the
database unchanged. -/
def applyOp (db : DB) : Op → DB
  | .opCreateItem inp pk =>
    match createItem inp pk with
    | .ok r => { db with items := db.items ++ [r] }
    | .error _ => db
  | .opCreateTransaction inp pk now =>
    match createPaymentTransaction inp pk now with
    | .ok r => { db with transactions := db.transactions ++ [r] }
    | .error _ => db
  | .opSaveTransaction pk inp now =>
    { db with
      transactions := db.transactions.map fun t =>
        if t.pk == pk then
          match savePaymentTransaction t inp now with
          | .ok r => r
          | .error _ => t
        else t }
  | .opDeleteTransaction pk => deletePaymentTransaction db pk
  | .opCreatePurchasedItem inp pk =>
    match createPurchasedItem db inp pk with
    | .ok r => { db with purchased_items := db.purchased_items ++ [r] }
    | .error _ => db
  | .opCreateError inp pk now =>
    { db with errors := db.errors ++ [createPaymentTransactionError inp pk now] }

/-- Run a sequence of operations. -/
def run (db : DB) : List Op → DB
  | [] => db
  | op :: rest => run (applyOp db op) rest

/-! ### Default ordering

PaymentTransaction.Meta.ordering is [-creation_date, transaction_id]:
creation_date descending, then transaction_id ascending. The descending
nullable date is encoded as an Int sort key where a later date is a smaller
key and a null date is the largest key (nulls last under DESC, the ordering
of the default backend). -/

/-- The first sort key of the PaymentTransaction default ordering. -/
def txKey (t : PaymentTransactionRow) : Int :=
  match t.creation_date with
  | some d => -(1 + (d : Int))
  | none => 0

/-- Row a sorts at or before row b under Meta.ordering of
PaymentTransaction. -/
def txLe (a b : PaymentTransactionRow) : Prop :=
  txKey a < txKey b ∨ (txKey a = txKey b ∧ a.transaction_id ≤ b.transaction_id)

instance : DecidableRel txLe := fun a b =>
  inferInstanceAs (Decidable (txKey a < txKey b ∨
    (txKey a = txKey b ∧ a.transaction_id ≤ b.transaction_id)))

instance : IsTotal PaymentTransactionRow txLe where
  total a b := by
    rcases lt_trichotomy (txKey a) (txKey b) with h | h | h
    · exact Or.inl (Or.inl h)
    · rcases le_total a.transaction_id b.transaction_id with h2 | h2
      · exact Or.inl (Or.inr ⟨h, h2⟩)
      · exact Or.inr (Or.inr ⟨h.symm, h2⟩)
    · exact Or.inr (Or.inl h)

instance : IsTrans PaymentTransactionRow txLe where
  trans a b c hab hbc := by
    rcases hab with h1 | ⟨e1, s1⟩ <;> rcases hbc with h2 | ⟨e2, s2⟩
    · exact Or.inl (lt_trans h1 h2)
    · exact Or.inl (lt_of_lt_of_le h1 (le_of_eq e2))
    · exact Or.inl (lt_of_le_of_lt (le_of_eq e1) h2)
    · exact Or.inr ⟨e1.trans e2, le_trans s1 s2⟩

/-- The default queryset of PaymentTransaction: the stored rows sorted by
Meta.ordering. -/
def orderedTransactions (db : DB) : List PaymentTransactionRow :=
  List.insertionSort txLe db.transactions

/-! PurchasedItem.Meta.ordering is [-transaction__date,
transaction__transaction_id]: both terms follow the required ForeignKey to
the parent PaymentTransaction row. -/

/-- Resolve the transaction ForeignKey of a PurchasedItem. -/
def findTransaction (db : DB) (pk : Nat) : Option PaymentTransactionRow :=
  db.transactions.find? fun t => t.pk == pk

/-- The first sort key of the PurchasedItem default ordering: the parent
date, descending. -/
def piKey (db : DB) (p : PurchasedItemRow) : Int :=
  match findTransaction db p.transaction with
  | some t => -(1 + (t.date : Int))
  | none => 1

/-- The second sort key of the PurchasedItem default ordering: the parent
transaction_id, ascending. -/
def piTid (db : DB) (p : PurchasedItemRow) : String :=
  match findTransaction db p.transaction with
  | some t => t.transaction_id
  | none => ""

/-- Row a sorts at or before row b under Meta.ordering of PurchasedItem. -/
def piLe (db : DB) (a b : PurchasedItemRow) : Prop :=
  piKey db a < piKey db b ∨ (piKey db a = piKey db b ∧ piTid db a ≤ piTid db b)

instance (db : DB) : DecidableRel (piLe db) := fun a b =>
  inferInstanceAs (Decidable (piKey db a < piKey db b ∨
    (piKey db a = piKey db b ∧ piTid db a ≤ piTid db b)))

instance (db : DB) : IsTotal PurchasedItemRow (piLe db) where
  total a b := by
    rcases lt_trichotomy (piKey db a) (piKey db b) with h | h | h
    · exact Or.inl (Or.inl h)
    · rcases le_total (piTid db a) (piTid db b) with h2 | h2
      · exact Or.inl (Or.inr ⟨h, h2⟩)
      · exact Or.inr (Or.inr ⟨h.symm, h2⟩)
    · exact Or.inr (Or.inl h)

instance (db : DB) : IsTrans PurchasedItemRow (piLe db) where
  trans a b c hab hbc := by
    rcases hab with h1 | ⟨e1, s1⟩ <;> rcases hbc with h2 | ⟨e2, s2⟩
    · exact Or.inl (lt_trans h1 h2)
    · exact Or.inl (lt_of_lt_of_le h1 (le_of_eq e2))
    · exact Or.inl (lt_of_le_of_lt (le_of_eq e1) h2)
    · exact Or.inr ⟨e1.trans e2, le_trans s1 s2⟩

/-- The default queryset of PurchasedItem: the stored rows sorted by
Meta.ordering. -/
def orderedPurchasedItems (db : DB) : List PurchasedItemRow :=
  List.insertionSort (piLe db) db.purchased_items

/-! ### Concrete fixtures for witness evaluations -/

/-- A concrete stored transaction: creation_date 9, transaction_id a. -/
def txA : PaymentTransactionRow :=
  { pk := 1
    user := 1
    content_type := none
    object_id := none
    creation_date := some 9
    date := 9
    transaction_id := "a"
    value := 100
    status := "PENDING" }

/-- A concrete stored transaction: creation_date 7, transaction_id b. -/
def txB : PaymentTransactionRow :=
  { pk := 2
    user := 1
    content_type := none
    object_id := none
    creation_date := some 7
    date := 12
    transaction_id := "b"
    value := 200
    status := "COMPLETED" }

/-- A database holding exactly the transaction txA. -/
def dbOneTx : DB :=
  { items := [], transactions := [txA], purchased_items := [], errors := [] }

/-- A purchased item row depending on txA. -/
def piRowOnTxA : PurchasedItemRow :=
  { pk := 1
    user := 1
    identifier := ""
    transaction := 1
    item := none
    content_type := none
    object_id := none
    price := none
    quantity := 2 }

/-- A database holding txA and one purchased item depending on it. -/
def dbTxWithItem : DB :=
  { items := [], transactions := [txA], purchased_items := [piRowOnTxA], errors := [] }

/-! ### The claims -/

/-- Claim C1. The claim reads models.py lines 238-242 as declaring an
optional ForeignKey column transaction on PaymentTransactionError that can
be stored and read back. The code does not do that: the assignment ends in
a trailing comma, so the class attribute named transaction is a one-element
tuple, the metaclass collects no field from it, the model has no
transaction column, and passing transaction as a creation keyword raises
TypeError. The model docstring (lines 207-209) documents the field as a
usable ForeignKey, so the code contradicts its own documentation. -/
theorem C1_transaction_not_a_field :
    ("transaction", ClassAttr.tuple1 PaymentTransactionError.transaction) ∈
      PaymentTransactionError.body ∧
    "transaction" ∉ (djangoFields PaymentTransactionError.body).map Prod.fst ∧
    "transaction" ∉ fieldNames PaymentTransactionError.body ∧
    modelInit PaymentTransactionError.body ["user", "transaction"] =
      Except.error "transaction is an invalid keyword argument" := by
  refine ⟨by decide, by decide, by decide, rfl⟩

/-- A creation input with quantity 0. -/
def piInputZero : PurchasedItemInput := { user := 1, transaction := 1, quantity := 0 }

/-- A creation input with quantity -5. -/
def piInputNeg : PurchasedItemInput := { user := 1, transaction := 1, quantity := -5 }

/-- A creation input with quantity 3. -/
def piInputThree : PurchasedItemInput := { user := 1, transaction := 1, quantity := 3 }

/-- The row stored for piInputThree under primary key 5. -/
def piRowThree : PurchasedItemRow :=
  { pk := 5
    user := 1
    identifier := ""
    transaction := 1
    item := none
    content_type := none
    object_id := none
    price := none
    quantity := 3 }

/-- Claim C2 counterexample. The claim says every attempt to create a
PurchasedItem with quantity at most 0 is rejected. PositiveIntegerField
admits zero, so creating with quantity 0 succeeds. -/
theorem C2_zero_quantity_accepted :
    piInputZero.quantity ≤ 0 ∧
    okB (createPurchasedItem dbOneTx piInputZero 5) = true := by
  exact ⟨by decide, rfl⟩

/-- Claim C2 as amended: creating a PurchasedItem with negative quantity is
rejected, and every stored PurchasedItem row has quantity at least 0 (not
at least 1: the PositiveIntegerField constraint is nonnegativity). -/
theorem C2_quantity_nonnegative (db : DB) (inp : PurchasedItemInput) (pk : Nat) :
    (inp.quantity < 0 → okB (createPurchasedItem db inp pk) = false) ∧
    (∀ r, createPurchasedItem db inp pk = Except.ok r → 0 ≤ r.quantity) := by
  constructor
  · intro hneg
    unfold createPurchasedItem
    split
    · split
      · rename_i hq
        unfold positiveIntegerFits at hq
        simp only [Bool.and_eq_true, decide_eq_true_eq] at hq
        omega
      · rfl
    · rfl
  · intro r hr
    unfold createPurchasedItem at hr
    split at hr
    · split at hr
      · rename_i hq
        unfold positiveIntegerFits at hq
        simp only [Bool.and_eq_true, decide_eq_true_eq] at hq
        cases hr
        exact hq.1
      · cases hr
    · cases hr

/-- Witness for the amended claim C2 at concrete inputs: quantity -5 is
rejected, and the stored row created from quantity 3 is nonnegative. -/
theorem C2_quantity_nonnegative_witness :
    okB (createPurchasedItem dbOneTx piInputNeg 5) = false ∧
    (0 : Int) ≤ piRowThree.quantity :=
  ⟨(C2_quantity_nonnegative dbOneTx piInputNeg 5).1 (by decide),
   (C2_quantity_nonnegative dbOneTx piInputThree 5).2 piRowThree rfl⟩

/-- Claim C3 counterexample. The claim says deleting a PaymentTransaction
with dependent PurchasedItem rows is rejected, leaving both unchanged. On a
database with transaction txA and a dependent purchased item, the delete
succeeds and removes both: the ForeignKey declares no on_delete, and this
Django generation then emulates ON DELETE CASCADE. -/
theorem C3_delete_not_rejected :
    dbTxWithItem.purchased_items ≠ [] ∧
    dbTxWithItem.transactions ≠ [] ∧
    (deletePaymentTransaction dbTxWithItem 1).transactions = [] ∧
    (deletePaymentTransaction dbTxWithItem 1).purchased_items = [] := by
  refine ⟨?_, ?_, rfl, rfl⟩
  · simp [dbTxWithItem]
  · simp [dbTxWithItem]

/-- Claim C3 as amended: deleting a PaymentTransaction succeeds and
cascades. Afterwards a transaction row is stored exactly when it was stored
before and its pk differs from the deleted one, a PurchasedItem row is
stored exactly when it was stored before and does not reference the deleted
pk, and Item and PaymentTransactionError rows are untouched. -/
theorem C3_delete_cascades (db : DB) (pk : Nat) :
    (∀ t, t ∈ (deletePaymentTransaction db pk).transactions ↔
      t ∈ db.transactions ∧ t.pk ≠ pk) ∧
    (∀ p, p ∈ (deletePaymentTransaction db pk).purchased_items ↔
      p ∈ db.purchased_items ∧ p.transaction ≠ pk) ∧
    (deletePaymentTransaction db pk).items = db.items ∧
    (deletePaymentTransaction db pk).errors = db.errors := by
  refine ⟨?_, ?_, rfl, rfl⟩
  · intro t
    simp [deletePaymentTransaction, List.mem_filter]
  · intro p
    simp [deletePaymentTransaction, List.mem_filter]

/-- Witness for the amended claim C3 at a concrete database: the dependent
purchased item is stored before the delete and gone after it, and the
error table is untouched. -/
theorem C3_delete_cascades_witness :
    (deletePaymentTransaction dbTxWithItem 1).errors = dbTxWithItem.errors ∧
    ¬ piRowOnTxA ∈ (deletePaymentTransaction dbTxWithItem 1).purchased_items :=
  ⟨(C3_delete_cascades dbTxWithItem 1).2.2.2,
   fun hmem => (((C3_delete_cascades dbTxWithItem 1).2.1 piRowOnTxA).mp hmem).2 rfl⟩

/-- Claim C4: creating a PaymentTransaction (no creation_date is supplied:
the field is auto_now_add) fills creation_date with the creation time, and a
later save keeps creation_date unchanged while the caller-supplied fields
and the auto_now date all change to their new values. -/
theorem C4_creation_date_immutable (inp : PaymentTransactionInput) (pk now0 : Nat)
    (r : PaymentTransactionRow)
    (h : createPaymentTransaction inp pk now0 = Except.ok r)
    (inp2 : PaymentTransactionInput) (now1 : Nat) (r2 : PaymentTransactionRow)
    (h2 : savePaymentTransaction r inp2 now1 = Except.ok r2) :
    r.creation_date = some now0 ∧
    r2.creation_date = some now0 ∧
    r2.user = inp2.user ∧
    r2.content_type = inp2.content_type ∧
    r2.object_id = inp2.object_id ∧
    r2.transaction_id = inp2.transaction_id ∧
    r2.value = inp2.value ∧
    r2.status = inp2.status ∧
    r2.date = now1 := by
  unfold createPaymentTransaction at h
  split at h
  · cases h
    unfold savePaymentTransaction at h2
    split at h2
    · cases h2
      exact ⟨rfl, rfl, rfl, rfl, rfl, rfl, rfl, rfl, rfl⟩
    · cases h2
  · cases h

/-- The creation input used in the C4 witness. -/
def txInputA : PaymentTransactionInput :=
  { user := 1, transaction_id := "a", value := 100, status := "PENDING" }

/-- The save input used in the C4 witness. -/
def txInputB : PaymentTransactionInput :=
  { user := 2, transaction_id := "b", value := 250, status := "COMPLETED" }

/-- The row created from txInputA at pk 1, time 5. -/
def txRowCreated : PaymentTransactionRow :=
  { pk := 1
    user := 1
    content_type := none
    object_id := none
    creation_date := some 5
    date := 5
    transaction_id := "a"
    value := 100
    status := "PENDING" }

/-- The row after saving txRowCreated with txInputB at time 9. -/
def txRowSaved : PaymentTransactionRow :=
  { pk := 1
    user := 2
    content_type := none
    object_id := none
    creation_date := some 5
    date := 9
    transaction_id := "b"
    value := 250
    status := "COMPLETED" }

/-- Witness for claim C4 at a concrete create at time 5 followed by a save
at time 9. -/
theorem C4_creation_date_immutable_witness :
    txRowCreated.creation_date = some 5 ∧
    txRowSaved.creation_date = some 5 ∧
    txRowSaved.user = txInputB.user ∧
    txRowSaved.content_type = txInputB.content_type ∧
    txRowSaved.object_id = txInputB.object_id ∧
    txRowSaved.transaction_id = txInputB.transaction_id ∧
    txRowSaved.value = txInputB.value ∧
    txRowSaved.status = txInputB.status ∧
    txRowSaved.date = 9 :=
  C4_creation_date_immutable txInputA 1 5 txRowCreated rfl txInputB 9 txRowSaved rfl

/-- The first sort key of a transaction row with a non-null creation_date. -/
theorem txKey_eq_of_some {t : PaymentTransactionRow} {d : Nat}
    (h : t.creation_date = some d) : txKey t = -(1 + (d : Int)) := by
  unfold txKey
  rw [h]

/-- Claim C5: the default ordering query over PaymentTransaction returns a
permutation of the stored rows in which, for any two positions i before j
with creation dates ci and cj, cj is at most ci, and when the dates tie the
transaction_id at i is at most the transaction_id at j. -/
theorem C5_transaction_default_ordering (db : DB) :
    List.Perm (orderedTransactions db) db.transactions ∧
    ∀ (i j : Fin (orderedTransactions db).length), i < j →
      ∀ ci cj, ((orderedTransactions db).get i).creation_date = some ci →
        ((orderedTransactions db).get j).creation_date = some cj →
        cj ≤ ci ∧ (cj = ci →
          ((orderedTransactions db).get i).transaction_id ≤
            ((orderedTransactions db).get j).transaction_id) := by
  constructor
  · exact List.perm_insertionSort txLe db.transactions
  · intro i j hij ci cj hci hcj
    have hs : List.Sorted txLe (orderedTransactions db) :=
      List.sorted_insertionSort txLe db.transactions
    have hrel : txLe ((orderedTransactions db).get i) ((orderedTransactions db).get j) :=
      hs.rel_get_of_lt hij
    unfold txLe at hrel
    rw [txKey_eq_of_some hci, txKey_eq_of_some hcj] at hrel
    rcases hrel with h | ⟨he, hti⟩
    · exact ⟨by omega, fun hcc => absurd hcc (by omega)⟩
    · exact ⟨by omega, fun _ => hti⟩

/-- A database holding txB then txA, out of order. -/
def dbTwoTx : DB :=
  { items := [], transactions := [txB, txA], purchased_items := [], errors := [] }

/-- Witness for claim C5 on a concrete two-row database: after sorting, the
row with creation_date 9 precedes the row with creation_date 7. -/
theorem C5_transaction_default_ordering_witness :
    (7 : Nat) ≤ 9 ∧ ((7 : Nat) = 9 →
      ((orderedTransactions dbTwoTx).get ⟨0, by decide⟩).transaction_id ≤
        ((orderedTransactions dbTwoTx).get ⟨1, by decide⟩).transaction_id) :=
  (C5_transaction_default_ordering dbTwoTx).2 ⟨0, by decide⟩ ⟨1, by decide⟩
    (by decide) 9 7 (by decide) (by decide)

/-- The first sort key of a purchased item whose transaction resolves. -/
theorem piKey_eq_of_find {db : DB} {p : PurchasedItemRow} {t : PaymentTransactionRow}
    (h : findTransaction db p.transaction = some t) :
    piKey db p = -(1 + (t.date : Int)) := by
  unfold piKey
  rw [h]

/-- The second sort key of a purchased item whose transaction resolves. -/
theorem piTid_eq_of_find {db : DB} {p : PurchasedItemRow} {t : PaymentTransactionRow}
    (h : findTransaction db p.transaction = some t) :
    piTid db p = t.transaction_id := by
  unfold piTid
  rw [h]

/-- Claim C6: the default ordering query over PurchasedItem returns a
permutation of the stored rows in which, for any two positions i before j
whose parent transactions resolve to ti and tj, the parent date of j is at
most the parent date of i, and when the parent dates tie the parent
transaction_id of i is at most the parent transaction_id of j. -/
theorem C6_purchasedItem_default_ordering (db : DB) :
    List.Perm (orderedPurchasedItems db) db.purchased_items ∧
    ∀ (i j : Fin (orderedPurchasedItems db).length), i < j →
      ∀ ti tj,
        findTransaction db (((orderedPurchasedItems db).get i).transaction) = some ti →
        findTransaction db (((orderedPurchasedItems db).get j).transaction) = some tj →
        tj.date ≤ ti.date ∧
          (tj.date = ti.date → ti.transaction_id ≤ tj.transaction_id) := by
  constructor
  · exact List.perm_insertionSort (piLe db) db.purchased_items
  · intro i j hij ti tj hti htj
    have hs : List.Sorted (piLe db) (orderedPurchasedItems db) :=
      List.sorted_insertionSort (piLe db) db.purchased_items
    have hrel : piLe db ((orderedPurchasedItems db).get i)
        ((orderedPurchasedItems db).get j) :=
      hs.rel_get_of_lt hij
    unfold piLe at hrel
    rw [piKey_eq_of_find hti, piKey_eq_of_find htj,
      piTid_eq_of_find hti, piTid_eq_of_find htj] at hrel
    rcases hrel with h | ⟨he, hs2⟩
    · exact ⟨by omega, fun hdd => absurd hdd (by omega)⟩
    · exact ⟨by omega, fun _ => hs2⟩

/-- A purchased item row depending on txB. -/
def piRowOnTxB : PurchasedItemRow :=
  { pk := 2
    user := 1
    identifier := ""
    transaction := 2
    item := none
    content_type := none
    object_id := none
    price := none
    quantity := 1 }

/-- A database with two transactions and one purchased item on each. -/
def dbTwoTxItems : DB :=
  { items := []
    transactions := [txA, txB]
    purchased_items := [piRowOnTxA, piRowOnTxB]
    errors := [] }

/-- Witness for claim C6 on a concrete database: the item whose parent has
date 12 sorts before the item whose parent has date 9. -/
theorem C6_purchasedItem_default_ordering_witness :
    txA.date ≤ txB.date ∧
      (txA.date = txB.date → txB.transaction_id ≤ txA.transaction_id) :=
  (C6_purchasedItem_default_ordering dbTwoTxItems).2 ⟨0, by decide⟩ ⟨1, by decide⟩
    (by decide) txB txA (by decide) (by decide)

/-- Applying any single operation leaves the stored error rows in place,
possibly appending new ones at the end. -/
theorem applyOp_errors_extend (db : DB) (op : Op) :
    ∃ tail, (applyOp db op).errors = db.errors ++ tail := by
  cases op with
  | opCreateItem inp pk =>
    cases hc : createItem inp pk with
    | error e => exact ⟨[], by simp [applyOp, hc]⟩
    | ok r => exact ⟨[], by simp [applyOp, hc]⟩
  | opCreateTransaction inp pk now =>
    cases hc : createPaymentTransaction inp pk now with
    | error e => exact ⟨[], by simp [applyOp, hc]⟩
    | ok r => exact ⟨[], by simp [applyOp, hc]⟩
  | opSaveTransaction pk inp now => exact ⟨[], by simp [applyOp]⟩
  | opDeleteTransaction pk =>
    exact ⟨[], by simp [applyOp, deletePaymentTransaction]⟩
  | opCreatePurchasedItem inp pk =>
    cases hc : createPurchasedItem db inp pk with
    | error e => exact ⟨[], by simp [applyOp, hc]⟩
    | ok r => exact ⟨[], by simp [applyOp, hc]⟩
  | opCreateError inp pk now =>
    exact ⟨[createPaymentTransactionError inp pk now], by simp [applyOp]⟩

/-- Claim C7: PaymentTransactionError rows are write-once. The module
defines no operation that updates or deletes an error row, so running any
sequence of the operations of this module leaves every stored error row in
place and unchanged: the error table after the run is the error table
before it with zero or more new rows appended. -/
theorem C7_errors_write_once (db : DB) (ops : List Op) :
    ∃ tail, (run db ops).errors = db.errors ++ tail := by
  induction ops generalizing db with
  | nil => exact ⟨[], by simp [run]⟩
  | cons op rest ih =>
    obtain ⟨t1, h1⟩ := applyOp_errors_extend db op
    obtain ⟨t2, h2⟩ := ih (applyOp db op)
    exact ⟨t1 ++ t2, by rw [run, h2, h1, List.append_assoc]⟩

/-- Claim C8: every successful save of a PaymentTransaction, insert or
update, sets date to the time of that save: the date field is declared with
auto_now, so pre_save overwrites it on every write. -/
theorem C8_date_tracks_save (inp : PaymentTransactionInput) (pk now : Nat)
    (r0 : PaymentTransactionRow) :
    (∀ r, createPaymentTransaction inp pk now = Except.ok r → r.date = now) ∧
    (∀ r, savePaymentTransaction r0 inp now = Except.ok r → r.date = now) := by
  constructor
  · intro r h
    unfold createPaymentTransaction at h
    split at h
    · cases h; rfl
    · cases h
  · intro r h
    unfold savePaymentTransaction at h
    split at h
    · cases h; rfl
    · cases h

/-- Witness for claim C8: a create at time 5 stores date 5, and a save of
that row at time 9 stores date 9. -/
theorem C8_date_tracks_save_witness :
    txRowCreated.date = 5 ∧ txRowSaved.date = 9 :=
  ⟨(C8_date_tracks_save txInputA 1 5 txRowCreated).1 txRowCreated rfl,
   (C8_date_tracks_save txInputB 1 9 txRowCreated).2 txRowSaved rfl⟩

/-- A stored transaction row with a null creation_date. -/
def txRowNullCreation : PaymentTransactionRow :=
  { pk := 3
    user := 1
    content_type := none
    object_id := none
    creation_date := none
    date := 7
    transaction_id := "c"
    value := 0
    status := "PENDING" }

/-- Column-level validity of a stored PaymentTransaction row under the
declared schema: a null creation_date is admitted exactly when the
declaration carries null, value must fit the declared max_digits, and the
character columns must fit their declared max_length. -/
def PaymentTransactionRow.schemaOk (r : PaymentTransactionRow) : Bool :=
  (r.creation_date.isSome || PaymentTransaction.creation_date.null) &&
  decimalFits PaymentTransaction.value r.value &&
  decide (r.transaction_id.length ≤ PaymentTransaction.transaction_id.max_length.getD 0) &&
  decide (r.status.length ≤ PaymentTransaction.status.max_length.getD 0)

/-- Claim C9: the creation_date column of PaymentTransaction is declared
blank and null even though it is auto-populated on insert, so the schema
admits a stored row whose creation_date is null: consumers of the schema
cannot assume every row carries a creation timestamp. -/
theorem C9_creation_date_nullable :
    PaymentTransaction.creation_date.null = true ∧
    PaymentTransaction.creation_date.blank = true ∧
    PaymentTransaction.creation_date.auto_now_add = true ∧
    txRowNullCreation.creation_date = none ∧
    txRowNullCreation.schemaOk = true := by
  exact ⟨rfl, rfl, rfl, rfl, by decide⟩

/-- Claim C10: both Item.value and PaymentTransaction.value are declared
with max_digits 8 and decimal_places 2, so with amounts stored as cents a
value is storable exactly when it lies between -999999.99 and 999999.99
(that is, between -99999999 and 99999999 cents), and a create is accepted
exactly when the value fits. -/
theorem C10_decimal_value_bounds :
    (∀ cents : Int, decimalFits Item.value cents = true ↔
      -99999999 ≤ cents ∧ cents ≤ 99999999) ∧
    (∀ cents : Int, decimalFits PaymentTransaction.value cents = true ↔
      -99999999 ≤ cents ∧ cents ≤ 99999999) ∧
    Item.value.decimal_places = some 2 ∧
    PaymentTransaction.value.decimal_places = some 2 ∧
    (∀ inp : ItemInput, ∀ pk,
      okB (createItem inp pk) = decimalFits Item.value inp.value) ∧
    (∀ inp : PaymentTransactionInput, ∀ pk now,
      okB (createPaymentTransaction inp pk now) =
        decimalFits PaymentTransaction.value inp.value) := by
  have h8 : (10 : Nat) ^ 8 = 100000000 := by norm_num
  refine ⟨?_, ?_, rfl, rfl, ?_, ?_⟩
  · intro cents
    simp only [decimalFits, Item.value, Option.getD, decide_eq_true_eq, h8]
    omega
  · intro cents
    simp only [decimalFits, PaymentTransaction.value, Option.getD, decide_eq_true_eq, h8]
    omega
  · intro inp pk
    cases hc : decimalFits Item.value inp.value <;> simp [createItem, okB, hc]
  · intro inp pk now
    cases hc : decimalFits PaymentTransaction.value inp.value <;>
      simp [createPaymentTransaction, okB, hc]

/-- Witness for claim C10: 999999.99 is storable, 1000000.00 is not, and a
concrete create of each is accepted and rejected accordingly. -/
theorem C10_decimal_value_bounds_witness :
    decimalFits Item.value 99999999 = true ∧
    decimalFits PaymentTransaction.value 100000000 = false := by
  constructor
  · exact (C10_decimal_value_bounds.1 99999999).mpr (by decide)
  · cases hb : decimalFits PaymentTransaction.value 100000000
    · rfl
    · exact absurd ((C10_decimal_value_bounds.2.1 100000000).mp hb) (by decide)

end PaypalExpressCheckout
